import Mathlib

/-!
Verification of the incremental water-texture loader of
src/source/renderer/WaterManager.cpp (Pyrogenesis / 0 A.D.).

The embedding models `WaterManager::LoadWaterTextures`,
`WaterManager::UnloadWaterTextures` and the constructor, together with the
external primitives they consume (ogl_tex_load, ogl_tex_upload,
g_Renderer.GetHeight, glGenTextures and the glTexImage2D / glTexParameteri
configuration calls).  The wall-clock budget of LDR_CHECK_TIMEOUT is modelled
by a fuel counter: fuel n means the first n deadline checks report "time
left" and every later check reports "deadline exceeded" (the clock is
monotone, so this captures every possible timing).  glGenTextures is modelled
by a counter in the state that hands out fresh, strictly increasing names.
-/

namespace WaterMgr

/-- GL texture filter values appearing in WaterManager.cpp
(GL_NEAREST, GL_LINEAR). -/
inductive GLFilter where
  | nearest
  | linear
  deriving DecidableEq

/-- GL texture wrap values appearing in WaterManager.cpp (GL_CLAMP_TO_EDGE). -/
inductive GLWrap where
  | clampToEdge
  deriving DecidableEq

/-- GL pixel/internal formats appearing in WaterManager.cpp (GL_RGB). -/
inductive GLFormat where
  | rgb
  deriving DecidableEq

/-- The observable configuration with which a render-target texture is
created: the glTexImage2D edge size, internal format and data pointer
(`dataNull` records that the data argument was the null pointer), plus the
four glTexParameteri settings. -/
structure TexConfig where
  size : Int
  minFilter : GLFilter
  magFilter : GLFilter
  wrapS : GLWrap
  wrapT : GLWrap
  internalFormat : GLFormat
  dataNull : Bool
  deriving DecidableEq

/-- External primitives consumed by `WaterManager::LoadWaterTextures`:
`ogl_tex_load` (returns a Handle, positive on success, `<= 0` on failure),
`ogl_tex_upload` (returns `>= 0` on success, negative on failure) and
`g_Renderer.GetHeight()`.  All are modelled as pure functions, so a load of
the same identifier gives the same result within a session. -/
structure Env where
  load : String → Int
  upload : Int → Int
  height : Int

/-- The fields of `WaterManager` that the loader, unloader and constructor
touch.  `m_WaterTexture` / `m_NormalMap` are the fixed-size handle arrays
(ARRAY_SIZE is the list length, which no operation changes); a slot value of
0 is the empty handle, matching the constructor and UnloadWaterTextures.
`glNameCounter` models the glGenTextures name allocator: each call returns
the next name; `reflectionConfig` / `refractionConfig` record the observable
creation parameters of the two render targets. -/
structure WMState where
  m_WaterTexture : List Int
  m_NormalMap : List Int
  cur_loading_water_tex : Nat
  cur_loading_normal_map : Nat
  m_ReflectionTexture : Nat
  m_RefractionTexture : Nat
  m_ReflectionTextureSize : Int
  m_RefractionTextureSize : Int
  m_RenderWater : Bool
  reflectionConfig : Option TexConfig
  refractionConfig : Option TexConfig
  glNameCounter : Nat
  deriving DecidableEq

/-- The state a freshly constructed `WaterManager` is in (constructor,
WaterManager.cpp lines 32-70), for slot capacities nT and nN: all slots 0,
both cursors 0, both render-target handles 0, both sizes 0, rendering
disabled. -/
def initState (nT nN : Nat) : WMState where
  m_WaterTexture := List.replicate nT 0
  m_NormalMap := List.replicate nN 0
  cur_loading_water_tex := 0
  cur_loading_normal_map := 0
  m_ReflectionTexture := 0
  m_RefractionTexture := 0
  m_ReflectionTextureSize := 0
  m_RefractionTextureSize := 0
  m_RenderWater := false
  reflectionConfig := none
  refractionConfig := none
  glNameCounter := 0

/-- The `static const char* water_type = "default"` of LoadWaterTextures. -/
def water_type : String := "default"

/-- The C `%02d` conversion for a non-negative value: decimal digits, left
padded with zeros to a minimum width of 2. -/
def fmt02d (n : Nat) : String :=
  if n < 10 then "0" ++ Nat.repr n else Nat.repr n

/-- The identifier built by
`snprintf(filename, PATH_MAX, "art/textures/animated/water/%s/diffuse%02d.dds", water_type, cur_loading_water_tex+1)`
(WaterManager.cpp lines 99-100). -/
def diffuseFilename (cur : Nat) : String :=
  "art/textures/animated/water/" ++ water_type ++ "/diffuse" ++
    fmt02d (cur + 1) ++ ".dds"

/-- The identifier built by
`snprintf(filename, PATH_MAX, "art/textures/animated/water/%s/normal%02d.dds", water_type, cur_loading_normal_map+1)`
(WaterManager.cpp lines 116-117). -/
def normalFilename (cur : Nat) : String :=
  "art/textures/animated/water/" ++ water_type ++ "/normal" ++
    fmt02d (cur + 1) ++ ".dds"

/-- Modelled from the spec: the return value of LDR_CHECK_TIMEOUT
(ps/Loader.h, not in src) when the time budget is exhausted — the
distinguished "Continue" result, distinct from 0 ("Done") and from the
non-positive load / negative upload failure codes. -/
def ERR_TIMED_OUT : Int := 1

/-- Result of one of the two while loops of LoadWaterTextures: the slot
array and cursor as left by the loop, the identifiers requested (appended to
the incoming request log), `exitCode = some c` when the loop body executed
`return c` (load failure, RETURN_ERR on upload, or LDR_CHECK_TIMEOUT), and
`exitCode = none` when the while condition became false, with the fuel that
remains for the rest of the call. -/
structure LoopOut where
  slots : List Int
  cur : Nat
  log : List String
  exitCode : Option Int
  fuelLeft : Nat
  deriving DecidableEq

/-- One of the two loading loops of LoadWaterTextures (lines 97-111 resp.
114-128), parameterized by the identifier builder `fname`:
`while (cur < capacity) { build filename; ht = load; if (ht <= 0) return ht;
slots[cur] = ht; RETURN_ERR(upload ht); cur++; LDR_CHECK_TIMEOUT; }`.
The fuel counts how many further deadline checks still report time left;
a check with fuel 0 returns ERR_TIMED_OUT.  Every load call appends its
identifier to `log`. -/
def loadLoop (load : String → Int) (upload : Int → Int) (fname : Nat → String)
    (slots : List Int) (cur fuel : Nat) (log : List String) : LoopOut :=
  if cur < slots.length then
    if load (fname cur) ≤ 0 then
      ⟨slots, cur, log ++ [fname cur], some (load (fname cur)), fuel⟩
    else if upload (load (fname cur)) < 0 then
      ⟨slots.set cur (load (fname cur)), cur, log ++ [fname cur],
        some (upload (load (fname cur))), fuel⟩
    else
      match fuel with
      | 0 => ⟨slots.set cur (load (fname cur)), cur + 1, log ++ [fname cur],
              some ERR_TIMED_OUT, 0⟩
      | fuel' + 1 =>
        loadLoop load upload fname (slots.set cur (load (fname cur))) (cur + 1)
          fuel' (log ++ [fname cur])
  else
    ⟨slots, cur, log, none, fuel⟩

/-- Modelled from the spec: helper for `RoundUpToPowerOf2`
(maths/MathUtil.h, not in src).  `log2upGo fuel x` is the smallest k with
`x <= 2 ^ k`, computed by repeated ceiling halving; `fuel >= x` guarantees
enough steps. -/
def log2upGo : Nat → Nat → Nat
  | 0, _ => 0
  | fuel + 1, x => if x ≤ 1 then 0 else log2upGo fuel ((x + 1) / 2) + 1

/-- Modelled from the spec: `RoundUpToPowerOf2` (maths/MathUtil.h, not in
src) returns the smallest power of two that is at least its argument. -/
def RoundUpToPowerOf2 (x : Int) : Int :=
  if x ≤ 1 then 1 else ((2 ^ log2upGo x.toNat x.toNat : Nat) : Int)

/-- The size computation of LoadWaterTextures lines 134-135:
`int size = RoundUpToPowerOf2(g_Renderer.GetHeight()); if (size > height) size /= 2;`. -/
def provisionSize (height : Int) : Int :=
  let size := RoundUpToPowerOf2 height
  if size > height then size / 2 else size

/-- The render-target provisioning of LoadWaterTextures lines 134-159:
store the shared size into both size fields, then glGenTextures / bind /
glTexImage2D / glTexParameteri for the reflection texture (min filter
GL_NEAREST, mag filter GL_LINEAR, both wraps GL_CLAMP_TO_EDGE, GL_RGB, null
data), then the same for the refraction texture with min filter GL_LINEAR. -/
def provision (height : Int) (s : WMState) : WMState :=
  let size := provisionSize height
  let reflTex := s.glNameCounter + 1
  let refrTex := s.glNameCounter + 2
  { s with
    m_ReflectionTextureSize := size
    m_RefractionTextureSize := size
    m_ReflectionTexture := reflTex
    reflectionConfig :=
      some ⟨size, GLFilter.nearest, GLFilter.linear, GLWrap.clampToEdge,
            GLWrap.clampToEdge, GLFormat.rgb, true⟩
    m_RefractionTexture := refrTex
    refractionConfig :=
      some ⟨size, GLFilter.linear, GLFilter.linear, GLWrap.clampToEdge,
            GLWrap.clampToEdge, GLFormat.rgb, true⟩
    glNameCounter := refrTex }

/-- `WaterManager::LoadWaterTextures` (lines 81-165): run the diffuse loop,
on early return propagate its code; otherwise run the normal-map loop with
the remaining fuel; on early return propagate its code; otherwise provision
the two render targets, set `m_RenderWater = true` and return 0.  The third
component is the list of resource identifiers requested during this call,
in order. -/
def LoadWaterTextures (env : Env) (fuel : Nat) (s : WMState) :
    Int × WMState × List String :=
  let r1 := loadLoop env.load env.upload diffuseFilename
    s.m_WaterTexture s.cur_loading_water_tex fuel []
  let s1 := { s with m_WaterTexture := r1.slots,
                     cur_loading_water_tex := r1.cur }
  match r1.exitCode with
  | some code => (code, s1, r1.log)
  | none =>
    let r2 := loadLoop env.load env.upload normalFilename
      s1.m_NormalMap s1.cur_loading_normal_map r1.fuelLeft r1.log
    let s2 := { s1 with m_NormalMap := r2.slots,
                        cur_loading_normal_map := r2.cur }
    match r2.exitCode with
    | some code => (code, s2, r2.log)
    | none => (0, { provision env.height s2 with m_RenderWater := true }, r2.log)

/-- `WaterManager::UnloadWaterTextures` (lines 170-187): call ogl_tex_free
on every slot of both arrays and clear each slot to 0, then reset both
cursors to 0.  The first component is the list of handle values passed to
ogl_tex_free, in order.  Nothing else in the state is touched. -/
def UnloadWaterTextures (s : WMState) : List Int × WMState :=
  (s.m_WaterTexture ++ s.m_NormalMap,
   { s with
     m_WaterTexture := List.replicate s.m_WaterTexture.length 0
     m_NormalMap := List.replicate s.m_NormalMap.length 0
     cur_loading_water_tex := 0
     cur_loading_normal_map := 0 })

/-- The readiness flag consulted by the renderer (`m_RenderWater`). -/
def isReady (s : WMState) : Bool := s.m_RenderWater

/-- A session: a sequence of LoadWaterTextures calls against the same
instance, each with its own fuel (time budget); returns the final state and
the concatenation of the per-call request logs. -/
def runSession (env : Env) (fuels : List Nat) (s : WMState) :
    WMState × List String :=
  match fuels with
  | [] => (s, [])
  | f :: rest =>
    let r := LoadWaterTextures env f s
    let r' := runSession env rest r.2.1
    (r'.1, r.2.2 ++ r'.2)

/-- The slot array of a class whose first c resources out of n have been
loaded: slot i holds the handle the load primitive returns for identifier
`fname i` when i < c and the empty handle 0 otherwise. -/
def fill (load : String → Int) (fname : Nat → String) (n c : Nat) : List Int :=
  (List.range n).map fun i => if i < c then load (fname i) else 0

/-- Loader-relevant state agreement used to compare sessions: the slot
arrays are exactly the cursors' worth of loaded handles and the cursors are
in range. -/
def GoodState (env : Env) (nT nN : Nat) (s : WMState) : Prop :=
  s.m_WaterTexture = fill env.load diffuseFilename nT s.cur_loading_water_tex ∧
  s.m_NormalMap = fill env.load normalFilename nN s.cur_loading_normal_map ∧
  s.cur_loading_water_tex ≤ nT ∧ s.cur_loading_normal_map ≤ nN

/-- A host environment in which every load succeeds with handle 7, every
upload succeeds, and the display is 4 pixels high. -/
def envOk : Env := ⟨fun _ => 7, fun _ => 0, 4⟩

/-- A host environment in which every load fails with code -1. -/
def envBad : Env := ⟨fun _ => -1, fun _ => 0, 4⟩

/-- A host environment with a zero-height display and succeeding loads. -/
def envZeroH : Env := ⟨fun _ => 7, fun _ => 0, 0⟩

/-- A host environment in which exactly the third diffuse resource fails to
load (code -1) and everything else succeeds. -/
def envThirdFails : Env :=
  ⟨fun fn => if fn = diffuseFilename 2 then -1 else 7, fun _ => 0, 4⟩

/-- A host environment in which every load succeeds but every upload fails
with code -3. -/
def envUploadFails : Env := ⟨fun _ => 7, fun _ => -3, 4⟩

/-- The state of a 1-diffuse / 1-normal instance after one fully successful
LoadWaterTextures call: both cursors 1, render targets provisioned
(reflection handle 1, refraction handle 2), rendering enabled. -/
def sDone : WMState := (LoadWaterTextures envOk 5 (initState 1 1)).2.1

/-- The diffuse loop as run by a LoadWaterTextures call on state s. -/
def loop1 (env : Env) (fuel : Nat) (s : WMState) : LoopOut :=
  loadLoop env.load env.upload diffuseFilename s.m_WaterTexture
    s.cur_loading_water_tex fuel []

/-- The normal-map loop as run by a LoadWaterTextures call on state s, with
the fuel and request log left by the diffuse loop. -/
def loop2 (env : Env) (fuel : Nat) (s : WMState) : LoopOut :=
  loadLoop env.load env.upload normalFilename s.m_NormalMap
    s.cur_loading_normal_map (loop1 env fuel s).fuelLeft (loop1 env fuel s).log

/-- One loop iteration in which load and upload both succeed: the handle is
stored, the cursor advances, the identifier is logged, the deadline check
passes and the loop continues with one unit of fuel less. -/
theorem loadLoop_step_success (load : String → Int) (upload : Int → Int)
    (fname : Nat → String) (slots : List Int) (cur fuel : Nat)
    (log : List String) (hcur : cur < slots.length)
    (hload : 0 < load (fname cur)) (hupload : 0 ≤ upload (load (fname cur))) :
    loadLoop load upload fname slots cur (fuel + 1) log =
      loadLoop load upload fname (slots.set cur (load (fname cur))) (cur + 1)
        fuel (log ++ [fname cur]) := by
  rw [loadLoop.eq_def, if_pos hcur, if_neg (by omega), if_neg (by omega)]

/-- One loop iteration in which the load fails (`ht <= 0`): the loop returns
the failure code at once; the slot array and the cursor are unchanged and
the failing identifier was logged. -/
theorem loadLoop_step_loadFail (load : String → Int) (upload : Int → Int)
    (fname : Nat → String) (slots : List Int) (cur fuel : Nat)
    (log : List String) (hcur : cur < slots.length)
    (hload : load (fname cur) ≤ 0) :
    loadLoop load upload fname slots cur fuel log =
      ⟨slots, cur, log ++ [fname cur], some (load (fname cur)), fuel⟩ := by
  rw [loadLoop.eq_def, if_pos hcur, if_pos hload]

/-- One loop iteration in which the load succeeds but the upload fails: the
loaded handle has already been stored into the slot, the cursor does not
advance, and the upload's error code is returned. -/
theorem loadLoop_step_uploadFail (load : String → Int) (upload : Int → Int)
    (fname : Nat → String) (slots : List Int) (cur fuel : Nat)
    (log : List String) (hcur : cur < slots.length)
    (hload : 0 < load (fname cur))
    (hupload : upload (load (fname cur)) < 0) :
    loadLoop load upload fname slots cur fuel log =
      ⟨slots.set cur (load (fname cur)), cur, log ++ [fname cur],
        some (upload (load (fname cur))), fuel⟩ := by
  rw [loadLoop.eq_def, if_pos hcur, if_neg (by omega), if_pos hupload]

/-- One loop iteration in which load and upload succeed but the deadline
check then reports that the budget is exhausted: the handle is stored, the
cursor advances past the processed slot, and ERR_TIMED_OUT is returned. -/
theorem loadLoop_step_timeout (load : String → Int) (upload : Int → Int)
    (fname : Nat → String) (slots : List Int) (cur : Nat)
    (log : List String) (hcur : cur < slots.length)
    (hload : 0 < load (fname cur)) (hupload : 0 ≤ upload (load (fname cur))) :
    loadLoop load upload fname slots cur 0 log =
      ⟨slots.set cur (load (fname cur)), cur + 1, log ++ [fname cur],
        some ERR_TIMED_OUT, 0⟩ := by
  rw [loadLoop.eq_def, if_pos hcur, if_neg (by omega), if_neg (by omega)]

/-- When the cursor has reached capacity the loop body never runs: nothing
is requested, nothing changes, and the while condition falls through. -/
theorem loadLoop_done (load : String → Int) (upload : Int → Int)
    (fname : Nat → String) (slots : List Int) (cur fuel : Nat)
    (log : List String) (hcur : ¬ cur < slots.length) :
    loadLoop load upload fname slots cur fuel log =
      ⟨slots, cur, log, none, fuel⟩ := by
  rw [loadLoop.eq_def, if_neg hcur]

/-- Structural facts about a loading loop, whatever the environment does:
the capacity is preserved, the cursor never moves backwards and never
exceeds the capacity (or its starting point), the loop only falls through
once the cursor has reached capacity, and the requested identifiers are a
contiguous ascending run of indices starting at the incoming cursor. -/
theorem loadLoop_basic (load : String → Int) (upload : Int → Int)
    (fname : Nat → String) :
    ∀ (fuel : Nat) (slots : List Int) (cur : Nat) (log : List String),
      (loadLoop load upload fname slots cur fuel log).slots.length
          = slots.length ∧
      cur ≤ (loadLoop load upload fname slots cur fuel log).cur ∧
      ((loadLoop load upload fname slots cur fuel log).exitCode = none →
        slots.length ≤ (loadLoop load upload fname slots cur fuel log).cur) ∧
      (loadLoop load upload fname slots cur fuel log).cur
          ≤ max slots.length cur ∧
      ∃ d, (loadLoop load upload fname slots cur fuel log).log =
        log ++ (List.range' cur d).map fname := by
  intro fuel
  induction fuel with
  | zero =>
    intro slots cur log
    by_cases hcur : cur < slots.length
    · by_cases hload : load (fname cur) ≤ 0
      · rw [loadLoop_step_loadFail load upload fname slots cur 0 log hcur hload]
        refine ⟨rfl, le_refl _, by simp, le_max_right _ _, 1, ?_⟩
        simp [List.range'_one]
      · by_cases hupload : upload (load (fname cur)) < 0
        · rw [loadLoop_step_uploadFail load upload fname slots cur 0 log hcur
            (by omega) hupload]
          refine ⟨by simp, le_refl _, by simp, le_max_right _ _, 1, ?_⟩
          simp [List.range'_one]
        · rw [loadLoop_step_timeout load upload fname slots cur log hcur
            (by omega) (by omega)]
          refine ⟨by simp, by simp, by simp, by simp; omega, 1, ?_⟩
          simp [List.range'_one]
    · rw [loadLoop_done load upload fname slots cur 0 log hcur]
      exact ⟨rfl, le_refl _, fun _ => by simp at hcur ⊢; omega,
        le_max_right _ _, 0, by simp⟩
  | succ fuel ih =>
    intro slots cur log
    by_cases hcur : cur < slots.length
    · by_cases hload : load (fname cur) ≤ 0
      · rw [loadLoop_step_loadFail load upload fname slots cur (fuel + 1) log
          hcur hload]
        refine ⟨rfl, le_refl _, by simp, le_max_right _ _, 1, ?_⟩
        simp [List.range'_one]
      · by_cases hupload : upload (load (fname cur)) < 0
        · rw [loadLoop_step_uploadFail load upload fname slots cur (fuel + 1)
            log hcur (by omega) hupload]
          refine ⟨by simp, le_refl _, by simp, le_max_right _ _, 1, ?_⟩
          simp [List.range'_one]
        · rw [loadLoop_step_success load upload fname slots cur fuel log hcur
            (by omega) (by omega)]
          obtain ⟨hlen, hmono, hnone, hmax, d, hlog⟩ :=
            ih (slots.set cur (load (fname cur))) (cur + 1) (log ++ [fname cur])
          rw [List.length_set] at hlen hnone hmax
          refine ⟨hlen, by omega, hnone, by omega, d + 1, ?_⟩
          rw [hlog, List.range'_succ]
          simp
    · rw [loadLoop_done load upload fname slots cur (fuel + 1) log hcur]
      exact ⟨rfl, le_refl _, fun _ => by simp at hcur ⊢; omega,
        le_max_right _ _, 0, by simp⟩

/-- Every early return of a loading loop is a deadline yield
(ERR_TIMED_OUT), a negative upload error, or the non-positive result of the
load primitive on some identifier that was built by `fname`. -/
theorem loadLoop_exit_some (load : String → Int) (upload : Int → Int)
    (fname : Nat → String) :
    ∀ (fuel : Nat) (slots : List Int) (cur : Nat) (log : List String) (k : Int),
      (loadLoop load upload fname slots cur fuel log).exitCode = some k →
      k = ERR_TIMED_OUT ∨ k < 0 ∨ (∃ c, k = load (fname c) ∧ k ≤ 0) := by
  intro fuel
  induction fuel with
  | zero =>
    intro slots cur log k hk
    by_cases hcur : cur < slots.length
    · by_cases hload : load (fname cur) ≤ 0
      · rw [loadLoop_step_loadFail load upload fname slots cur 0 log hcur
          hload] at hk
        simp at hk
        exact Or.inr (Or.inr ⟨cur, hk.symm, hk ▸ hload⟩)
      · by_cases hupload : upload (load (fname cur)) < 0
        · rw [loadLoop_step_uploadFail load upload fname slots cur 0 log hcur
            (by omega) hupload] at hk
          simp at hk
          omega
        · rw [loadLoop_step_timeout load upload fname slots cur log hcur
            (by omega) (by omega)] at hk
          simp at hk
          omega
    · rw [loadLoop_done load upload fname slots cur 0 log hcur] at hk
      simp at hk
  | succ fuel ih =>
    intro slots cur log k hk
    by_cases hcur : cur < slots.length
    · by_cases hload : load (fname cur) ≤ 0
      · rw [loadLoop_step_loadFail load upload fname slots cur (fuel + 1) log
          hcur hload] at hk
        simp at hk
        exact Or.inr (Or.inr ⟨cur, hk.symm, hk ▸ hload⟩)
      · by_cases hupload : upload (load (fname cur)) < 0
        · rw [loadLoop_step_uploadFail load upload fname slots cur (fuel + 1)
            log hcur (by omega) hupload] at hk
          simp at hk
          omega
        · rw [loadLoop_step_success load upload fname slots cur fuel log hcur
            (by omega) (by omega)] at hk
          exact ih _ _ _ _ hk
    · rw [loadLoop_done load upload fname slots cur (fuel + 1) log hcur] at hk
      simp at hk

/-- A class with cursor 0 has an all-empty slot array. -/
theorem fill_zero (load : String → Int) (fname : Nat → String) (n : Nat) :
    fill load fname n 0 = List.replicate n 0 := by
  apply List.ext_getElem
  · simp [fill]
  · intro i h1 h2
    simp [fill]

/-- Storing the handle for the cursor's identifier into the cursor's slot
extends the populated prefix by one. -/
theorem fill_set (load : String → Int) (fname : Nat → String) (n c : Nat)
    (hc : c < n) :
    (fill load fname n c).set c (load (fname c)) = fill load fname n (c + 1) := by
  apply List.ext_getElem
  · simp [fill]
  · intro i h1 h2
    simp only [fill, List.length_map, List.length_range] at h1 h2 ⊢
    rw [List.getElem_set]
    by_cases hic : c = i
    · subst hic
      simp [fill]
    · simp only [if_neg hic]
      simp only [fill, List.getElem_map, List.getElem_range]
      have : i < c ↔ i < c + 1 := by omega
      by_cases hi : i < c
      · rw [if_pos hi, if_pos (by omega)]
      · rw [if_neg hi, if_neg (by omega)]

/-- A fully populated class holds exactly the handle the load primitive
returns for each of its identifiers. -/
theorem fill_full (load : String → Int) (fname : Nat → String) (n : Nat) :
    fill load fname n n = (List.range n).map fun i => load (fname i) := by
  apply List.ext_getElem
  · simp [fill]
  · intro i h1 h2
    simp only [fill, List.getElem_map, List.getElem_range,
      List.length_map, List.length_range] at h1 ⊢
    rw [if_pos (by omega)]

/-- Behavior of a loading loop in an environment where every load and every
upload succeeds, started on a correctly populated prefix: the result is
again a correctly populated prefix, whose cursor moved monotonically, and
the loop fell through (rather than yielding on the deadline) whenever the
fuel covered the remaining items, consuming one unit per item. -/
theorem loadLoop_noFail (load : String → Int) (upload : Int → Int)
    (fname : Nat → String) (hL : ∀ fn, 0 < load fn) (hU : ∀ h, 0 ≤ upload h)
    (n : Nat) :
    ∀ (fuel c : Nat) (log : List String), c ≤ n →
      ∃ c', c ≤ c' ∧ c' ≤ n ∧
        (loadLoop load upload fname (fill load fname n c) c fuel log).slots
            = fill load fname n c' ∧
        (loadLoop load upload fname (fill load fname n c) c fuel log).cur
            = c' ∧
        ((loadLoop load upload fname (fill load fname n c) c fuel log).exitCode
            = none → c' = n) ∧
        (n - c ≤ fuel →
          (loadLoop load upload fname (fill load fname n c) c fuel log).exitCode
              = none ∧
          (loadLoop load upload fname (fill load fname n c) c fuel
              log).fuelLeft = fuel - (n - c)) := by
  intro fuel
  induction fuel with
  | zero =>
    intro c log hc
    by_cases hcur : c < (fill load fname n c).length
    · rw [loadLoop_step_timeout load upload fname _ c log hcur (hL _) (hU _),
        fill_set load fname n c (by simp [fill] at hcur; omega)]
      have hcn : c < n := by simp [fill] at hcur; omega
      exact ⟨c + 1, by omega, by omega, rfl, rfl, by simp, fun h => by omega⟩
    · rw [loadLoop_done load upload fname _ c 0 log hcur]
      have hcn : c = n := by simp [fill] at hcur; omega
      exact ⟨c, le_refl _, by omega, rfl, rfl, fun _ => hcn,
        fun _ => ⟨rfl, by simp [hcn]⟩⟩
  | succ fuel ih =>
    intro c log hc
    by_cases hcur : c < (fill load fname n c).length
    · have hcn : c < n := by simp [fill] at hcur; omega
      rw [loadLoop_step_success load upload fname _ c fuel log hcur (hL _)
          (hU _),
        fill_set load fname n c hcn]
      obtain ⟨c', h1, h2, h3, h4, h5, h6⟩ := ih (c + 1) (log ++ [fname c])
        (by omega)
      exact ⟨c', by omega, h2, h3, h4, h5, fun h => by
        obtain ⟨ha, hb⟩ := h6 (by omega)
        exact ⟨ha, by omega⟩⟩
    · rw [loadLoop_done load upload fname _ c (fuel + 1) log hcur]
      have hcn : c = n := by simp [fill] at hcur; omega
      exact ⟨c, le_refl _, by omega, rfl, rfl, fun _ => hcn,
        fun _ => ⟨rfl, by simp [hcn]⟩⟩

/-- A LoadWaterTextures call whose diffuse loop returns early propagates
that code, takes over the diffuse loop's slot array, cursor and request
log, and touches nothing else. -/
theorem LWT_exit1 (env : Env) (fuel : Nat) (s : WMState) (code : Int)
    (h : (loop1 env fuel s).exitCode = some code) :
    LoadWaterTextures env fuel s =
      (code,
       { s with m_WaterTexture := (loop1 env fuel s).slots
                cur_loading_water_tex := (loop1 env fuel s).cur },
       (loop1 env fuel s).log) := by
  simp only [loop1] at h
  simp only [LoadWaterTextures, h]
  rfl

/-- A LoadWaterTextures call whose diffuse loop falls through and whose
normal-map loop returns early propagates the normal-map loop's code and
takes over both loops' slot arrays, cursors and the combined request log. -/
theorem LWT_exit2 (env : Env) (fuel : Nat) (s : WMState) (code : Int)
    (h1 : (loop1 env fuel s).exitCode = none)
    (h2 : (loop2 env fuel s).exitCode = some code) :
    LoadWaterTextures env fuel s =
      (code,
       { s with m_WaterTexture := (loop1 env fuel s).slots
                cur_loading_water_tex := (loop1 env fuel s).cur
                m_NormalMap := (loop2 env fuel s).slots
                cur_loading_normal_map := (loop2 env fuel s).cur },
       (loop2 env fuel s).log) := by
  simp only [loop1] at h1
  simp only [loop2, loop1] at h2
  simp only [LoadWaterTextures, h1, h2]
  rfl

/-- A LoadWaterTextures call in which both loops fall through provisions
the render targets on the loop-updated state, enables rendering, and
returns 0. -/
theorem LWT_through (env : Env) (fuel : Nat) (s : WMState)
    (h1 : (loop1 env fuel s).exitCode = none)
    (h2 : (loop2 env fuel s).exitCode = none) :
    LoadWaterTextures env fuel s =
      (0,
       { provision env.height
           { s with m_WaterTexture := (loop1 env fuel s).slots
                    cur_loading_water_tex := (loop1 env fuel s).cur
                    m_NormalMap := (loop2 env fuel s).slots
                    cur_loading_normal_map := (loop2 env fuel s).cur }
         with m_RenderWater := true },
       (loop2 env fuel s).log) := by
  simp only [loop1] at h1
  simp only [loop2, loop1] at h2
  simp only [LoadWaterTextures, h1, h2]
  rfl

/-- In an environment where every load and upload succeeds, one
LoadWaterTextures call maps a correctly populated state to a correctly
populated state. -/
theorem LWT_good (env : Env) (nT nN : Nat) (hL : ∀ fn, 0 < env.load fn)
    (hU : ∀ h, 0 ≤ env.upload h) (fuel : Nat) (s : WMState)
    (hs : GoodState env nT nN s) :
    GoodState env nT nN (LoadWaterTextures env fuel s).2.1 := by
  obtain ⟨hw, hn, hcw, hcn⟩ := hs
  have h1 : loop1 env fuel s = loadLoop env.load env.upload diffuseFilename
      (fill env.load diffuseFilename nT s.cur_loading_water_tex)
      s.cur_loading_water_tex fuel [] := by
    rw [loop1, hw]
  obtain ⟨c1, hc1a, hc1b, hc1slots, hc1cur, hc1none, hc1fuel⟩ :=
    loadLoop_noFail env.load env.upload diffuseFilename hL hU nT fuel
      s.cur_loading_water_tex [] hcw
  rw [← h1] at hc1slots hc1cur hc1none hc1fuel
  cases hex1 : (loop1 env fuel s).exitCode with
  | some code =>
    rw [LWT_exit1 env fuel s code hex1]
    exact ⟨by simp [hc1slots, hc1cur], by simp [hn], by simp [hc1cur, hc1b], hcn⟩
  | none =>
    have h2 : loop2 env fuel s = loadLoop env.load env.upload normalFilename
        (fill env.load normalFilename nN s.cur_loading_normal_map)
        s.cur_loading_normal_map (loop1 env fuel s).fuelLeft
        (loop1 env fuel s).log := by
      rw [loop2, hn]
    obtain ⟨c2, hc2a, hc2b, hc2slots, hc2cur, hc2none, hc2fuel⟩ :=
      loadLoop_noFail env.load env.upload normalFilename hL hU nN
        (loop1 env fuel s).fuelLeft s.cur_loading_normal_map
        (loop1 env fuel s).log hcn
    rw [← h2] at hc2slots hc2cur hc2none hc2fuel
    cases hex2 : (loop2 env fuel s).exitCode with
    | some code =>
      rw [LWT_exit2 env fuel s code hex1 hex2]
      exact ⟨by simp [hc1slots, hc1cur], by simp [hc2slots, hc2cur],
        by simp [hc1cur, hc1b], by simp [hc2cur, hc2b]⟩
    | none =>
      rw [LWT_through env fuel s hex1 hex2]
      refine ⟨?_, ?_, ?_, ?_⟩ <;>
        simp [provision, hc1slots, hc2slots, hc1cur, hc2cur, hc1b, hc2b]

/-- In an environment where every load and upload succeeds, a whole session
maps a correctly populated state to a correctly populated state. -/
theorem runSession_good (env : Env) (nT nN : Nat) (hL : ∀ fn, 0 < env.load fn)
    (hU : ∀ h, 0 ≤ env.upload h) :
    ∀ (fuels : List Nat) (s : WMState), GoodState env nT nN s →
      GoodState env nT nN (runSession env fuels s).1 := by
  intro fuels
  induction fuels with
  | nil => intro s hs; exact hs
  | cons f rest ih =>
    intro s hs
    exact ih _ (LWT_good env nT nN hL hU f s hs)

/-- A freshly constructed instance is correctly populated (cursors 0, all
slots empty). -/
theorem initState_good (env : Env) (nT nN : Nat) :
    GoodState env nT nN (initState nT nN) := by
  refine ⟨?_, ?_, by simp [initState], by simp [initState]⟩ <;>
    simp [initState, fill_zero]

/-- In an environment where every load and upload succeeds, a single
LoadWaterTextures call whose fuel covers the whole batch completes the
load: it returns 0, fully populates both classes, moves both cursors to
capacity and enables rendering. -/
theorem LWT_full (env : Env) (nT nN : Nat) (hL : ∀ fn, 0 < env.load fn)
    (hU : ∀ h, 0 ≤ env.upload h) (fuel : Nat) (hfuel : nT + nN ≤ fuel) :
    (LoadWaterTextures env fuel (initState nT nN)).1 = 0 ∧
    (LoadWaterTextures env fuel (initState nT nN)).2.1.m_WaterTexture
        = fill env.load diffuseFilename nT nT ∧
    (LoadWaterTextures env fuel (initState nT nN)).2.1.m_NormalMap
        = fill env.load normalFilename nN nN ∧
    (LoadWaterTextures env fuel (initState nT nN)).2.1.cur_loading_water_tex
        = nT ∧
    (LoadWaterTextures env fuel (initState nT nN)).2.1.cur_loading_normal_map
        = nN ∧
    (LoadWaterTextures env fuel (initState nT nN)).2.1.m_RenderWater = true := by
  have h1 : loop1 env fuel (initState nT nN)
      = loadLoop env.load env.upload diffuseFilename
        (fill env.load diffuseFilename nT 0) 0 fuel [] := by
    rw [loop1]
    simp [initState, fill_zero]
  obtain ⟨c1, hc1a, hc1b, hc1slots, hc1cur, hc1none, hc1fuel⟩ :=
    loadLoop_noFail env.load env.upload diffuseFilename hL hU nT fuel 0 []
      (by omega)
  rw [← h1] at hc1slots hc1cur hc1none hc1fuel
  obtain ⟨hex1, hfuel1⟩ := hc1fuel (by omega)
  have hc1n : c1 = nT := hc1none hex1
  rw [hc1n] at hc1slots hc1cur
  have h2 : loop2 env fuel (initState nT nN)
      = loadLoop env.load env.upload normalFilename
        (fill env.load normalFilename nN 0) 0 (loop1 env fuel (initState nT nN)).fuelLeft
        (loop1 env fuel (initState nT nN)).log := by
    rw [loop2]
    simp [initState, fill_zero]
  obtain ⟨c2, hc2a, hc2b, hc2slots, hc2cur, hc2none, hc2fuel⟩ :=
    loadLoop_noFail env.load env.upload normalFilename hL hU nN
      (loop1 env fuel (initState nT nN)).fuelLeft 0
      (loop1 env fuel (initState nT nN)).log (by omega)
  rw [← h2] at hc2slots hc2cur hc2none hc2fuel
  obtain ⟨hex2, hfuel2⟩ := hc2fuel (by omega)
  have hc2n : c2 = nN := hc2none hex2
  rw [hc2n] at hc2slots hc2cur
  rw [LWT_through env fuel (initState nT nN) hex1 hex2]
  refine ⟨rfl, ?_, ?_, ?_, ?_, ?_⟩ <;>
    simp [provision, hc1slots, hc2slots, hc1cur, hc2cur]

/-- log2upGo is 0 on arguments at most 1, whatever the fuel. -/
theorem log2upGo_of_le_one (x : Nat) (hx : x ≤ 1) :
    ∀ fuel, log2upGo fuel x = 0 := by
  intro fuel
  cases fuel with
  | zero => rfl
  | succ fuel => rw [log2upGo, if_pos hx]

/-- With enough fuel, log2upGo computes the least exponent k with
`x <= 2 ^ k`. -/
theorem log2upGo_spec :
    ∀ (fuel x : Nat), x ≤ fuel →
      x ≤ 2 ^ log2upGo fuel x ∧ (2 ≤ x → 2 ^ (log2upGo fuel x - 1) < x) := by
  intro fuel
  induction fuel with
  | zero =>
    intro x hx
    have hx0 : x = 0 := by omega
    subst hx0
    exact ⟨by simp, by omega⟩
  | succ fuel ih =>
    intro x hx
    by_cases hx1 : x ≤ 1
    · rw [log2upGo, if_pos hx1]
      exact ⟨by simpa using hx1, by omega⟩
    · have hx2 : 2 ≤ x := by omega
      have hy : (x + 1) / 2 ≤ fuel := by omega
      obtain ⟨ih1, ih2⟩ := ih ((x + 1) / 2) hy
      rw [log2upGo, if_neg hx1]
      constructor
      · have h2 : x ≤ 2 * ((x + 1) / 2) := by omega
        calc x ≤ 2 * ((x + 1) / 2) := h2
          _ ≤ 2 * 2 ^ log2upGo fuel ((x + 1) / 2) :=
            Nat.mul_le_mul_left 2 ih1
          _ = 2 ^ (log2upGo fuel ((x + 1) / 2) + 1) := (pow_succ' 2 _).symm
      · intro _
        simp only [Nat.add_sub_cancel]
        by_cases hyy : (x + 1) / 2 ≤ 1
        · rw [log2upGo_of_le_one _ hyy fuel]
          simpa using hx2
        · have ih2' := ih2 (by omega)
          have hk1 : 1 ≤ log2upGo fuel ((x + 1) / 2) := by
            by_contra hk0
            have hk : log2upGo fuel ((x + 1) / 2) = 0 := by omega
            rw [hk] at ih1
            simp at ih1
            omega
          obtain ⟨m, hm⟩ : ∃ m, log2upGo fuel ((x + 1) / 2) = m + 1 :=
            ⟨log2upGo fuel ((x + 1) / 2) - 1, by omega⟩
          rw [hm] at ih2' ⊢
          simp only [Nat.add_sub_cancel] at ih2'
          rw [pow_succ']
          omega

/-- RoundUpToPowerOf2 on a positive height is a power of two at least the
height, and (except for exponent 0) its half is below the height: it is the
least power of two at or above the height. -/
theorem RoundUpToPowerOf2_spec (h : Int) (hh : 1 ≤ h) :
    ∃ k : Nat, RoundUpToPowerOf2 h = (2 : Int) ^ k ∧ h ≤ (2 : Int) ^ k ∧
      (k = 0 ∨ (2 : Int) ^ (k - 1) < h) := by
  by_cases h1 : h ≤ 1
  · refine ⟨0, ?_, by simpa using (by omega : h = 1).le, Or.inl rfl⟩
    rw [RoundUpToPowerOf2, if_pos h1]
    simp
  · have h2 : (2 : Int) ≤ h := by omega
    have hn : h.toNat = h := Int.toNat_of_nonneg (by omega)
    obtain ⟨hs1, hs2⟩ := log2upGo_spec h.toNat h.toNat (le_refl _)
    have hs2' := hs2 (by omega)
    refine ⟨log2upGo h.toNat h.toNat, ?_, ?_, Or.inr ?_⟩
    · rw [RoundUpToPowerOf2, if_neg h1]
      push_cast
      ring
    · calc h = (h.toNat : Int) := hn.symm
        _ ≤ ((2 ^ log2upGo h.toNat h.toNat : Nat) : Int) := by
          exact_mod_cast hs1
        _ = (2 : Int) ^ log2upGo h.toNat h.toNat := by push_cast; ring
    · calc (2 : Int) ^ (log2upGo h.toNat h.toNat - 1)
          = ((2 ^ (log2upGo h.toNat h.toNat - 1) : Nat) : Int) := by
            push_cast; ring
        _ < (h.toNat : Int) := by exact_mod_cast hs2'
        _ = h := hn

/-- The size chosen by lines 134-135 for a positive display height is the
largest power of two that does not exceed the height. -/
theorem provisionSize_spec (h : Int) (hh : 0 < h) :
    (∃ k : Nat, provisionSize h = (2 : Int) ^ k) ∧ provisionSize h ≤ h ∧
      (∀ j : Nat, (2 : Int) ^ j ≤ h → (2 : Int) ^ j ≤ provisionSize h) := by
  obtain ⟨k, hr, hk1, hk2⟩ := RoundUpToPowerOf2_spec h (by omega)
  simp only [provisionSize]
  by_cases hcmp : RoundUpToPowerOf2 h > h
  · rw [if_pos hcmp, hr]
    have hklt : h < (2 : Int) ^ k := by omega
    have hkpos : 1 ≤ k := by
      rcases hk2 with hk0 | _
      · subst hk0
        simp at hklt
        omega
      · by_contra hc0
        have hk0 : k = 0 := by omega
        rw [hk0] at hklt
        simp at hklt
        omega
    have hhalf : (2 : Int) ^ k / 2 = (2 : Int) ^ (k - 1) := by
      obtain ⟨m, hm⟩ : ∃ m, k = m + 1 := ⟨k - 1, by omega⟩
      rw [hm, pow_succ]
      simp only [Nat.add_sub_cancel]
      exact Int.mul_ediv_cancel _ (by norm_num)
    rw [hhalf]
    have hlow : (2 : Int) ^ (k - 1) < h := by
      rcases hk2 with hk0 | hlt
      · omega
      · exact hlt
    refine ⟨⟨k - 1, rfl⟩, by omega, ?_⟩
    intro j hj
    have hjk : j < k := by
      have : (2 : Int) ^ j < (2 : Int) ^ k := by omega
      exact (pow_lt_pow_iff_right (by norm_num : (1 : Int) < 2)).mp this
    exact pow_le_pow_right (by norm_num : (1 : Int) ≤ 2) (by omega)
  · rw [if_neg hcmp]
    refine ⟨⟨k, hr⟩, by omega, ?_⟩
    intro j hj
    omega

/-- C3: for every positive display height the provisioner selects the
largest power of two that does not exceed the height (round up to a power
of two, halve once if that exceeds the height); both render targets receive
this same size; and provision at heights 1024, 1000 and 1 yields edges
1024, 512 and 1. -/
theorem claim_C3 :
    (∀ h : Int, 0 < h →
      ((∃ k : Nat, provisionSize h = (2 : Int) ^ k) ∧
        provisionSize h ≤ h ∧
        (∀ j : Nat, (2 : Int) ^ j ≤ h → (2 : Int) ^ j ≤ provisionSize h)) ∧
      (∀ s : WMState,
        (provision h s).m_ReflectionTextureSize = provisionSize h ∧
        (provision h s).m_RefractionTextureSize = provisionSize h)) ∧
    provisionSize 1024 = 1024 ∧ provisionSize 1000 = 512 ∧
    provisionSize 1 = 1 := by
  refine ⟨fun h hh => ⟨provisionSize_spec h hh, fun s => ⟨rfl, rfl⟩⟩,
    by decide, by decide, by decide⟩

/-- C3 witness: the characterization evaluated at height 1000, where the
selected edge is 512. -/
theorem claim_C3_witness :
    ((0 : Int) < 1000 ∧
      ((∃ k : Nat, provisionSize 1000 = (2 : Int) ^ k) ∧
        provisionSize 1000 ≤ 1000 ∧
        (∀ j : Nat, (2 : Int) ^ j ≤ 1000 → (2 : Int) ^ j ≤ provisionSize 1000)) ∧
      (∀ s : WMState,
        (provision 1000 s).m_ReflectionTextureSize = provisionSize 1000 ∧
        (provision 1000 s).m_RefractionTextureSize = provisionSize 1000)) ∧
    provisionSize 1000 = 512 :=
  ⟨⟨by decide, claim_C3.1 1000 (by decide)⟩, by decide⟩

/-- The %02d conversion of a value between 1 and 99 is exactly the two
decimal digits (tens digit then units digit). -/
theorem fmt02d_digits :
    ∀ n : Nat, n < 100 → 1 ≤ n →
      fmt02d n = String.mk [Nat.digitChar (n / 10), Nat.digitChar (n % 10)] := by
  decide

/-- C9: for every in-range cursor value the requested identifier is the
fixed path prefix holding the category string and the variant name
("default"), followed by the 1-based index printed as exactly two decimal
digits (zero padded), followed by the fixed ".dds" extension. -/
theorem claim_C9 (c : Nat) (h : c < 99) :
    diffuseFilename c =
      "art/textures/animated/water/default/diffuse" ++
        String.mk [Nat.digitChar ((c + 1) / 10), Nat.digitChar ((c + 1) % 10)]
        ++ ".dds" ∧
    normalFilename c =
      "art/textures/animated/water/default/normal" ++
        String.mk [Nat.digitChar ((c + 1) / 10), Nat.digitChar ((c + 1) % 10)]
        ++ ".dds" ∧
    (fmt02d (c + 1)).length = 2 := by
  have hd := fmt02d_digits (c + 1) (by omega) (by omega)
  refine ⟨?_, ?_, ?_⟩
  · rw [diffuseFilename, hd]
    have hpre : "art/textures/animated/water/" ++ water_type ++ "/diffuse" =
        "art/textures/animated/water/default/diffuse" := rfl
    rw [hpre]
  · rw [normalFilename, hd]
    have hpre : "art/textures/animated/water/" ++ water_type ++ "/normal" =
        "art/textures/animated/water/default/normal" := rfl
    rw [hpre]
  · rw [hd]
    rfl

/-- C9 witness: cursor 0 requests diffuse01 and cursor 11 requests
normal12, as in the spec's examples. -/
theorem claim_C9_witness :
    ((0 : Nat) < 99 ∧
      (diffuseFilename 0 =
        "art/textures/animated/water/default/diffuse" ++
          String.mk [Nat.digitChar ((0 + 1) / 10), Nat.digitChar ((0 + 1) % 10)]
          ++ ".dds" ∧
      normalFilename 0 =
        "art/textures/animated/water/default/normal" ++
          String.mk [Nat.digitChar ((0 + 1) / 10), Nat.digitChar ((0 + 1) % 10)]
          ++ ".dds" ∧
      (fmt02d (0 + 1)).length = 2)) ∧
    diffuseFilename 0 = "art/textures/animated/water/default/diffuse01.dds" ∧
    normalFilename 11 = "art/textures/animated/water/default/normal12.dds" :=
  ⟨⟨by decide, claim_C9 0 (by decide)⟩, by decide, by decide⟩

/-- Two states that agree on both slot arrays and both cursors produce the
same return code, the same request log and the same slot arrays and cursors
under a LoadWaterTextures call (the other fields do not influence the
loader). -/
theorem LWT_congr (env : Env) (fuel : Nat) (s t : WMState)
    (hW : s.m_WaterTexture = t.m_WaterTexture)
    (hcW : s.cur_loading_water_tex = t.cur_loading_water_tex)
    (hN : s.m_NormalMap = t.m_NormalMap)
    (hcN : s.cur_loading_normal_map = t.cur_loading_normal_map) :
    (LoadWaterTextures env fuel s).1 = (LoadWaterTextures env fuel t).1 ∧
    (LoadWaterTextures env fuel s).2.2 = (LoadWaterTextures env fuel t).2.2 ∧
    (LoadWaterTextures env fuel s).2.1.m_WaterTexture
        = (LoadWaterTextures env fuel t).2.1.m_WaterTexture ∧
    (LoadWaterTextures env fuel s).2.1.m_NormalMap
        = (LoadWaterTextures env fuel t).2.1.m_NormalMap ∧
    (LoadWaterTextures env fuel s).2.1.cur_loading_water_tex
        = (LoadWaterTextures env fuel t).2.1.cur_loading_water_tex ∧
    (LoadWaterTextures env fuel s).2.1.cur_loading_normal_map
        = (LoadWaterTextures env fuel t).2.1.cur_loading_normal_map := by
  have h1 : loop1 env fuel s = loop1 env fuel t := by
    rw [loop1, loop1, hW, hcW]
  have h2 : loop2 env fuel s = loop2 env fuel t := by
    rw [loop2, loop2, hN, hcN, h1]
  cases hex1 : (loop1 env fuel t).exitCode with
  | some code =>
    rw [LWT_exit1 env fuel s code (by rw [h1]; exact hex1),
        LWT_exit1 env fuel t code hex1]
    refine ⟨rfl, by rw [h1], by rw [h1], hN, by rw [h1], hcN⟩
  | none =>
    cases hex2 : (loop2 env fuel t).exitCode with
    | some code =>
      rw [LWT_exit2 env fuel s code (by rw [h1]; exact hex1)
            (by rw [h2]; exact hex2),
          LWT_exit2 env fuel t code hex1 hex2]
      refine ⟨rfl, by rw [h2], by rw [h1], by rw [h2], by rw [h1], by rw [h2]⟩
    | none =>
      rw [LWT_through env fuel s (by rw [h1]; exact hex1)
            (by rw [h2]; exact hex2),
          LWT_through env fuel t hex1 hex2]
      refine ⟨rfl, by rw [h2], ?_, ?_, ?_, ?_⟩ <;>
        simp [provision, h1, h2]

/-- C1 counterexample: after a fully successful load of a 1-diffuse /
1-normal instance, UnloadWaterTextures leaves the readiness flag true and
both render-target handles and sizes in place, so the unit is
distinguishable from a freshly constructed one. -/
theorem claim_C1_counterexample :
    (UnloadWaterTextures sDone).2.m_RenderWater = true ∧
    (UnloadWaterTextures sDone).2.m_ReflectionTexture = 1 ∧
    (UnloadWaterTextures sDone).2.m_RefractionTexture = 2 ∧
    (UnloadWaterTextures sDone).2.m_ReflectionTextureSize = 4 ∧
    (initState 1 1).m_RenderWater = false ∧
    (UnloadWaterTextures sDone).2 ≠ initState 1 1 := by
  decide

/-- C1 (amended): UnloadWaterTextures passes every slot value of both
classes to the free primitive, empties every slot, and resets both cursors
to 0 — but it leaves the two render-target handles, their sizes and the
readiness flag untouched (it neither frees the render targets nor clears
the flag, so the unit is not indistinguishable from a fresh one); the
loader itself is reset: a subsequent LoadWaterTextures call behaves exactly
like that of a freshly constructed instance of the same capacities in
return code, request log, slot arrays and cursors. -/
theorem claim_C1 (s : WMState) (env : Env) (fuel : Nat) :
    (UnloadWaterTextures s).1 = s.m_WaterTexture ++ s.m_NormalMap ∧
    (UnloadWaterTextures s).2.m_WaterTexture
        = List.replicate s.m_WaterTexture.length 0 ∧
    (UnloadWaterTextures s).2.m_NormalMap
        = List.replicate s.m_NormalMap.length 0 ∧
    (UnloadWaterTextures s).2.cur_loading_water_tex = 0 ∧
    (UnloadWaterTextures s).2.cur_loading_normal_map = 0 ∧
    (UnloadWaterTextures s).2.m_ReflectionTexture = s.m_ReflectionTexture ∧
    (UnloadWaterTextures s).2.m_RefractionTexture = s.m_RefractionTexture ∧
    (UnloadWaterTextures s).2.m_ReflectionTextureSize
        = s.m_ReflectionTextureSize ∧
    (UnloadWaterTextures s).2.m_RefractionTextureSize
        = s.m_RefractionTextureSize ∧
    isReady (UnloadWaterTextures s).2 = s.m_RenderWater ∧
    ((LoadWaterTextures env fuel (UnloadWaterTextures s).2).1
        = (LoadWaterTextures env fuel
            (initState s.m_WaterTexture.length s.m_NormalMap.length)).1 ∧
      (LoadWaterTextures env fuel (UnloadWaterTextures s).2).2.2
        = (LoadWaterTextures env fuel
            (initState s.m_WaterTexture.length s.m_NormalMap.length)).2.2 ∧
      (LoadWaterTextures env fuel (UnloadWaterTextures s).2).2.1.m_WaterTexture
        = (LoadWaterTextures env fuel
            (initState s.m_WaterTexture.length s.m_NormalMap.length)).2.1.m_WaterTexture ∧
      (LoadWaterTextures env fuel (UnloadWaterTextures s).2).2.1.m_NormalMap
        = (LoadWaterTextures env fuel
            (initState s.m_WaterTexture.length s.m_NormalMap.length)).2.1.m_NormalMap ∧
      (LoadWaterTextures env fuel (UnloadWaterTextures s).2).2.1.cur_loading_water_tex
        = (LoadWaterTextures env fuel
            (initState s.m_WaterTexture.length s.m_NormalMap.length)).2.1.cur_loading_water_tex ∧
      (LoadWaterTextures env fuel (UnloadWaterTextures s).2).2.1.cur_loading_normal_map
        = (LoadWaterTextures env fuel
            (initState s.m_WaterTexture.length s.m_NormalMap.length)).2.1.cur_loading_normal_map) := by
  refine ⟨rfl, rfl, rfl, rfl, rfl, rfl, rfl, rfl, rfl, rfl, ?_⟩
  exact LWT_congr env fuel (UnloadWaterTextures s).2
    (initState s.m_WaterTexture.length s.m_NormalMap.length) rfl rfl rfl rfl

/-- C2 counterexample: on a successful load the reflection target's
minification filter is NEAREST, not linear as claimed (and the
refraction target's is LINEAR): the claimed asymmetry is reversed. -/
theorem claim_C2_counterexample :
    ((LoadWaterTextures envOk 5 (initState 1 1)).2.1.reflectionConfig).map
        TexConfig.minFilter = some GLFilter.nearest ∧
    ¬ ((LoadWaterTextures envOk 5 (initState 1 1)).2.1.reflectionConfig).map
        TexConfig.minFilter = some GLFilter.linear ∧
    ((LoadWaterTextures envOk 5 (initState 1 1)).2.1.refractionConfig).map
        TexConfig.minFilter = some GLFilter.linear := by
  decide

/-- C2 (amended): whenever a LoadWaterTextures call succeeds (returns 0;
the load primitive never returns the ambiguous handle 0), the reflection
render target was created with a NEAREST minification filter and the
refraction render target with a LINEAR minification filter — the reverse of
the claimed asymmetry — while both use linear magnification, clamp-to-edge
wrapping on both axes, an RGB color buffer created with a null data
pointer, and the same square edge size. -/
theorem claim_C2 (env : Env) (fuel : Nat) (s : WMState)
    (hnz : ∀ fn, env.load fn ≠ 0)
    (hdone : (LoadWaterTextures env fuel s).1 = 0) :
    (LoadWaterTextures env fuel s).2.1.reflectionConfig =
      some ⟨provisionSize env.height, GLFilter.nearest, GLFilter.linear,
        GLWrap.clampToEdge, GLWrap.clampToEdge, GLFormat.rgb, true⟩ ∧
    (LoadWaterTextures env fuel s).2.1.refractionConfig =
      some ⟨provisionSize env.height, GLFilter.linear, GLFilter.linear,
        GLWrap.clampToEdge, GLWrap.clampToEdge, GLFormat.rgb, true⟩ ∧
    (LoadWaterTextures env fuel s).2.1.m_ReflectionTextureSize
        = provisionSize env.height ∧
    (LoadWaterTextures env fuel s).2.1.m_RefractionTextureSize
        = provisionSize env.height := by
  cases hex1 : (loop1 env fuel s).exitCode with
  | some code =>
    exfalso
    rw [LWT_exit1 env fuel s code hex1] at hdone
    simp only at hdone
    rcases loadLoop_exit_some env.load env.upload diffuseFilename fuel
        s.m_WaterTexture s.cur_loading_water_tex [] code
        (by simpa only [loop1] using hex1) with h | h | ⟨c, hc, hc0⟩
    · rw [hdone] at h
      exact absurd h (by decide)
    · omega
    · exact hnz (diffuseFilename c) (by omega)
  | none =>
    cases hex2 : (loop2 env fuel s).exitCode with
    | some code =>
      exfalso
      rw [LWT_exit2 env fuel s code hex1 hex2] at hdone
      simp only at hdone
      rcases loadLoop_exit_some env.load env.upload normalFilename
          (loop1 env fuel s).fuelLeft s.m_NormalMap s.cur_loading_normal_map
          (loop1 env fuel s).log code
          (by simpa only [loop2] using hex2) with h | h | ⟨c, hc, hc0⟩
      · rw [hdone] at h
        exact absurd h (by decide)
      · omega
      · exact hnz (normalFilename c) (by omega)
    | none =>
      rw [LWT_through env fuel s hex1 hex2]
      refine ⟨?_, ?_, ?_, ?_⟩ <;> simp [provision]

/-- C2 witness: a concrete fully successful load in which the stated
configuration is reached. -/
theorem claim_C2_witness :
    (∀ fn, envOk.load fn ≠ 0) ∧
    (LoadWaterTextures envOk 5 (initState 1 1)).1 = 0 ∧
    ((LoadWaterTextures envOk 5 (initState 1 1)).2.1.reflectionConfig =
      some ⟨provisionSize envOk.height, GLFilter.nearest, GLFilter.linear,
        GLWrap.clampToEdge, GLWrap.clampToEdge, GLFormat.rgb, true⟩ ∧
    (LoadWaterTextures envOk 5 (initState 1 1)).2.1.refractionConfig =
      some ⟨provisionSize envOk.height, GLFilter.linear, GLFilter.linear,
        GLWrap.clampToEdge, GLWrap.clampToEdge, GLFormat.rgb, true⟩ ∧
    (LoadWaterTextures envOk 5 (initState 1 1)).2.1.m_ReflectionTextureSize
        = provisionSize envOk.height ∧
    (LoadWaterTextures envOk 5 (initState 1 1)).2.1.m_RefractionTextureSize
        = provisionSize envOk.height) :=
  ⟨fun _ => by show (7 : Int) ≠ 0; decide, by decide,
    claim_C2 envOk 5 (initState 1 1) (fun _ => by show (7 : Int) ≠ 0; decide)
      (by decide)⟩

/-- C4 counterexample: stepping again after a completed load returns Done
(0) and requests nothing, but it is not a no-op: provisioning runs again
and replaces the reflection render-target handle (1 becomes 3). -/
theorem claim_C4_counterexample :
    (LoadWaterTextures envOk 5 sDone).1 = 0 ∧
    (LoadWaterTextures envOk 5 sDone).2.2 = [] ∧
    sDone.m_ReflectionTexture = 1 ∧
    (LoadWaterTextures envOk 5 sDone).2.1.m_ReflectionTexture = 3 ∧
    (LoadWaterTextures envOk 5 sDone).2.1.m_ReflectionTexture
        ≠ sDone.m_ReflectionTexture := by
  decide

/-- C4 (amended): after both cursors have reached capacity, every further
LoadWaterTextures call returns 0 (Done), requests no resources, and leaves
slots and cursors unchanged — but it is not a no-op: it re-runs
provisioning, overwriting both render-target handles with two freshly
generated names (leaking the previous targets whenever those were already
allocated). -/
theorem claim_C4 (env : Env) (fuel : Nat) (s : WMState)
    (hw : s.cur_loading_water_tex = s.m_WaterTexture.length)
    (hn : s.cur_loading_normal_map = s.m_NormalMap.length) :
    (LoadWaterTextures env fuel s).1 = 0 ∧
    (LoadWaterTextures env fuel s).2.2 = [] ∧
    (LoadWaterTextures env fuel s).2.1.m_WaterTexture = s.m_WaterTexture ∧
    (LoadWaterTextures env fuel s).2.1.m_NormalMap = s.m_NormalMap ∧
    (LoadWaterTextures env fuel s).2.1.cur_loading_water_tex
        = s.cur_loading_water_tex ∧
    (LoadWaterTextures env fuel s).2.1.cur_loading_normal_map
        = s.cur_loading_normal_map ∧
    (LoadWaterTextures env fuel s).2.1.m_ReflectionTexture
        = s.glNameCounter + 1 ∧
    (LoadWaterTextures env fuel s).2.1.m_RefractionTexture
        = s.glNameCounter + 2 ∧
    (LoadWaterTextures env fuel s).2.1.m_RenderWater = true ∧
    (s.m_ReflectionTexture ≤ s.glNameCounter →
      (LoadWaterTextures env fuel s).2.1.m_ReflectionTexture
        ≠ s.m_ReflectionTexture) ∧
    (s.m_RefractionTexture ≤ s.glNameCounter →
      (LoadWaterTextures env fuel s).2.1.m_RefractionTexture
        ≠ s.m_RefractionTexture) := by
  have e1 : loop1 env fuel s
      = ⟨s.m_WaterTexture, s.cur_loading_water_tex, [], none, fuel⟩ := by
    rw [loop1]
    exact loadLoop_done _ _ _ _ _ _ _ (by omega)
  have e2 : loop2 env fuel s
      = ⟨s.m_NormalMap, s.cur_loading_normal_map, [], none, fuel⟩ := by
    rw [loop2, e1]
    exact loadLoop_done _ _ _ _ _ _ _ (by omega)
  rw [LWT_through env fuel s (by rw [e1]) (by rw [e2])]
  refine ⟨rfl, by simp [e2], ?_, ?_, ?_, ?_, ?_, ?_, ?_, ?_, ?_⟩ <;>
    simp [provision, e1, e2]
  · intro h
    omega
  · intro h
    omega

/-- C4 witness: the no-request / re-provisioning behavior at the concrete
completed state sDone. -/
theorem claim_C4_witness :
    (sDone.cur_loading_water_tex = sDone.m_WaterTexture.length ∧
     sDone.cur_loading_normal_map = sDone.m_NormalMap.length) ∧
    ((LoadWaterTextures envOk 7 sDone).1 = 0 ∧
    (LoadWaterTextures envOk 7 sDone).2.2 = [] ∧
    (LoadWaterTextures envOk 7 sDone).2.1.m_WaterTexture
        = sDone.m_WaterTexture ∧
    (LoadWaterTextures envOk 7 sDone).2.1.m_NormalMap = sDone.m_NormalMap ∧
    (LoadWaterTextures envOk 7 sDone).2.1.cur_loading_water_tex
        = sDone.cur_loading_water_tex ∧
    (LoadWaterTextures envOk 7 sDone).2.1.cur_loading_normal_map
        = sDone.cur_loading_normal_map ∧
    (LoadWaterTextures envOk 7 sDone).2.1.m_ReflectionTexture
        = sDone.glNameCounter + 1 ∧
    (LoadWaterTextures envOk 7 sDone).2.1.m_RefractionTexture
        = sDone.glNameCounter + 2 ∧
    (LoadWaterTextures envOk 7 sDone).2.1.m_RenderWater = true ∧
    (sDone.m_ReflectionTexture ≤ sDone.glNameCounter →
      (LoadWaterTextures envOk 7 sDone).2.1.m_ReflectionTexture
        ≠ sDone.m_ReflectionTexture) ∧
    (sDone.m_RefractionTexture ≤ sDone.glNameCounter →
      (LoadWaterTextures envOk 7 sDone).2.1.m_RefractionTexture
        ≠ sDone.m_RefractionTexture)) :=
  ⟨⟨by decide, by decide⟩,
    claim_C4 envOk 7 sDone (by decide) (by decide)⟩

/-- C6 counterexample: with a zero-height display a LoadWaterTextures call
that reaches provisioning does not reject the input: it returns 0, creates
both render targets with edge 0 and even enables rendering — there is no
InvalidDisplaySize error path. -/
theorem claim_C6_counterexample :
    (LoadWaterTextures envZeroH 0 (initState 0 0)).1 = 0 ∧
    (LoadWaterTextures envZeroH 0 (initState 0 0)).2.1.reflectionConfig
        = some ⟨0, GLFilter.nearest, GLFilter.linear, GLWrap.clampToEdge,
            GLWrap.clampToEdge, GLFormat.rgb, true⟩ ∧
    (LoadWaterTextures envZeroH 0 (initState 0 0)).2.1.m_ReflectionTextureSize
        = 0 ∧
    (LoadWaterTextures envZeroH 0 (initState 0 0)).2.1.m_RenderWater
        = true := by
  decide

/-- C6 (amended): provisioning performs no validation of the display
height: for every non-positive height it computes edge 0 and still creates
both render targets (with edge 0) instead of reporting an error. -/
theorem claim_C6 (h : Int) (s : WMState) (hh : h ≤ 0) :
    provisionSize h = 0 ∧
    (provision h s).m_ReflectionTextureSize = 0 ∧
    (provision h s).m_RefractionTextureSize = 0 ∧
    ((provision h s).reflectionConfig).isSome = true ∧
    ((provision h s).refractionConfig).isSome = true := by
  have h0 : provisionSize h = 0 := by
    simp only [provisionSize, RoundUpToPowerOf2, if_pos (by omega : h ≤ 1)]
    rw [if_pos (by omega : (1 : Int) > h)]
    decide
  exact ⟨h0, by simp [provision, h0], by simp [provision, h0],
    by simp [provision], by simp [provision]⟩

/-- C6 witness: height 0 yields edge 0 and both targets allocated. -/
theorem claim_C6_witness :
    (0 : Int) ≤ 0 ∧
    (provisionSize 0 = 0 ∧
    (provision 0 (initState 1 1)).m_ReflectionTextureSize = 0 ∧
    (provision 0 (initState 1 1)).m_RefractionTextureSize = 0 ∧
    ((provision 0 (initState 1 1)).reflectionConfig).isSome = true ∧
    ((provision 0 (initState 1 1)).refractionConfig).isSome = true) :=
  ⟨by decide, claim_C6 0 (initState 1 1) (by decide)⟩

/-- C5: a failing load returns its code with the cursor unchanged, a
failing upload returns its code with the cursor unchanged, and in
particular when the third diffuse load fails on a fresh instance (first two
loads and uploads succeeding, budget covering them) the call returns the
failure, the diffuse cursor is exactly 2, the normal cursor is 0, and the
unit is not ready. -/
theorem claim_C5 :
    (∀ (load : String → Int) (upload : Int → Int) (fname : Nat → String)
        (slots : List Int) (cur fuel : Nat) (log : List String),
      cur < slots.length → load (fname cur) ≤ 0 →
      loadLoop load upload fname slots cur fuel log =
        ⟨slots, cur, log ++ [fname cur], some (load (fname cur)), fuel⟩) ∧
    (∀ (load : String → Int) (upload : Int → Int) (fname : Nat → String)
        (slots : List Int) (cur fuel : Nat) (log : List String),
      cur < slots.length → 0 < load (fname cur) →
      upload (load (fname cur)) < 0 →
      loadLoop load upload fname slots cur fuel log =
        ⟨slots.set cur (load (fname cur)), cur, log ++ [fname cur],
          some (upload (load (fname cur))), fuel⟩) ∧
    (∀ (env : Env) (fuel nT nN : Nat),
      3 ≤ nT → 2 ≤ fuel →
      0 < env.load (diffuseFilename 0) →
      0 ≤ env.upload (env.load (diffuseFilename 0)) →
      0 < env.load (diffuseFilename 1) →
      0 ≤ env.upload (env.load (diffuseFilename 1)) →
      env.load (diffuseFilename 2) ≤ 0 →
      (LoadWaterTextures env fuel (initState nT nN)).1
          = env.load (diffuseFilename 2) ∧
      (LoadWaterTextures env fuel (initState nT nN)).2.1.cur_loading_water_tex
          = 2 ∧
      (LoadWaterTextures env fuel (initState nT nN)).2.1.cur_loading_normal_map
          = 0 ∧
      isReady (LoadWaterTextures env fuel (initState nT nN)).2.1 = false) := by
  refine ⟨fun load upload fname slots cur fuel log hcur hload =>
      loadLoop_step_loadFail load upload fname slots cur fuel log hcur hload,
    fun load upload fname slots cur fuel log hcur hload hupl =>
      loadLoop_step_uploadFail load upload fname slots cur fuel log hcur
        hload hupl, ?_⟩
  intro env fuel nT nN hnT hfuel h0 h0u h1 h1u h2
  obtain ⟨f, rfl⟩ : ∃ f, fuel = f + 2 := ⟨fuel - 2, by omega⟩
  have e1 : loop1 env (f + 2) (initState nT nN) =
      ⟨((List.replicate nT (0 : Int)).set 0
          (env.load (diffuseFilename 0))).set 1 (env.load (diffuseFilename 1)),
        2, [diffuseFilename 0, diffuseFilename 1, diffuseFilename 2],
        some (env.load (diffuseFilename 2)), f⟩ := by
    rw [loop1]
    show loadLoop env.load env.upload diffuseFilename
      (List.replicate nT 0) 0 (f + 2) [] = _
    rw [loadLoop_step_success env.load env.upload diffuseFilename _ 0 (f + 1)
        [] (by simp; omega) h0 h0u]
    rw [loadLoop_step_success env.load env.upload diffuseFilename _ 1 f
        _ (by simp; omega) h1 h1u]
    rw [loadLoop_step_loadFail env.load env.upload diffuseFilename _ 2 f
        _ (by simp; omega) h2]
    simp
  rw [LWT_exit1 env (f + 2) (initState nT nN) (env.load (diffuseFilename 2))
      (by rw [e1])]
  refine ⟨rfl, by simp [e1], rfl, rfl⟩

/-- C5 witness: the third-diffuse failure scenario in a concrete
environment where exactly diffuse03 fails. -/
theorem claim_C5_witness :
    ((3 : Nat) ≤ 3 ∧ (2 : Nat) ≤ 5 ∧
      0 < envThirdFails.load (diffuseFilename 0) ∧
      0 ≤ envThirdFails.upload (envThirdFails.load (diffuseFilename 0)) ∧
      0 < envThirdFails.load (diffuseFilename 1) ∧
      0 ≤ envThirdFails.upload (envThirdFails.load (diffuseFilename 1)) ∧
      envThirdFails.load (diffuseFilename 2) ≤ 0) ∧
    ((LoadWaterTextures envThirdFails 5 (initState 3 2)).1
        = envThirdFails.load (diffuseFilename 2) ∧
      (LoadWaterTextures envThirdFails 5
          (initState 3 2)).2.1.cur_loading_water_tex = 2 ∧
      (LoadWaterTextures envThirdFails 5
          (initState 3 2)).2.1.cur_loading_normal_map = 0 ∧
      isReady (LoadWaterTextures envThirdFails 5 (initState 3 2)).2.1
        = false) :=
  ⟨⟨by decide, by decide, by decide, by decide, by decide, by decide,
      by decide⟩,
    claim_C5.2.2 envThirdFails 5 3 2 (by decide) (by decide) (by decide)
      (by decide) (by decide) (by decide) (by decide)⟩

/-- C10: for either resource class, when the upload of the resource at the
cursor fails after a successful load, the loaded handle has already been
stored into the cursor's slot: the call returns the upload's error code,
the failing class's cursor stays put, its slot array is the old one with
the handle written at the cursor (so exactly the first cursor+1 slots are
non-empty when the state was sequentially filled), and a subsequent
UnloadWaterTextures passes that very handle to the free primitive.  The
first conjunct covers a diffuse upload failure (lines 107-109), the second
a normal-map upload failure (lines 124-126, reached once the diffuse
cursor is at capacity). -/
theorem claim_C10 :
    (∀ (env : Env) (fuel : Nat) (s : WMState),
      s.cur_loading_water_tex < s.m_WaterTexture.length →
      0 < env.load (diffuseFilename s.cur_loading_water_tex) →
      env.upload (env.load (diffuseFilename s.cur_loading_water_tex)) < 0 →
      (∀ j, j < s.m_WaterTexture.length →
        ((j < s.cur_loading_water_tex → s.m_WaterTexture[j]! ≠ 0) ∧
          (s.cur_loading_water_tex ≤ j → s.m_WaterTexture[j]! = 0))) →
      (LoadWaterTextures env fuel s).1
          = env.upload (env.load (diffuseFilename s.cur_loading_water_tex)) ∧
      (LoadWaterTextures env fuel s).2.1.m_WaterTexture
          = s.m_WaterTexture.set s.cur_loading_water_tex
              (env.load (diffuseFilename s.cur_loading_water_tex)) ∧
      (LoadWaterTextures env fuel s).2.1.cur_loading_water_tex
          = s.cur_loading_water_tex ∧
      (∀ j, j < s.m_WaterTexture.length →
        ((LoadWaterTextures env fuel s).2.1.m_WaterTexture[j]! ≠ 0 ↔
          j ≤ s.cur_loading_water_tex)) ∧
      env.load (diffuseFilename s.cur_loading_water_tex)
          ∈ (UnloadWaterTextures (LoadWaterTextures env fuel s).2.1).1) ∧
    (∀ (env : Env) (fuel : Nat) (s : WMState),
      s.cur_loading_water_tex = s.m_WaterTexture.length →
      s.cur_loading_normal_map < s.m_NormalMap.length →
      0 < env.load (normalFilename s.cur_loading_normal_map) →
      env.upload (env.load (normalFilename s.cur_loading_normal_map)) < 0 →
      (∀ j, j < s.m_NormalMap.length →
        ((j < s.cur_loading_normal_map → s.m_NormalMap[j]! ≠ 0) ∧
          (s.cur_loading_normal_map ≤ j → s.m_NormalMap[j]! = 0))) →
      (LoadWaterTextures env fuel s).1
          = env.upload (env.load (normalFilename s.cur_loading_normal_map)) ∧
      (LoadWaterTextures env fuel s).2.1.m_NormalMap
          = s.m_NormalMap.set s.cur_loading_normal_map
              (env.load (normalFilename s.cur_loading_normal_map)) ∧
      (LoadWaterTextures env fuel s).2.1.cur_loading_normal_map
          = s.cur_loading_normal_map ∧
      (∀ j, j < s.m_NormalMap.length →
        ((LoadWaterTextures env fuel s).2.1.m_NormalMap[j]! ≠ 0 ↔
          j ≤ s.cur_loading_normal_map)) ∧
      env.load (normalFilename s.cur_loading_normal_map)
          ∈ (UnloadWaterTextures (LoadWaterTextures env fuel s).2.1).1) := by
  constructor
  · intro env fuel s hcur hload hupl hslots
    have e1 : loop1 env fuel s =
        ⟨s.m_WaterTexture.set s.cur_loading_water_tex
            (env.load (diffuseFilename s.cur_loading_water_tex)),
          s.cur_loading_water_tex,
          [] ++ [diffuseFilename s.cur_loading_water_tex],
          some (env.upload (env.load
            (diffuseFilename s.cur_loading_water_tex))),
          fuel⟩ := by
      rw [loop1]
      exact loadLoop_step_uploadFail env.load env.upload diffuseFilename
        s.m_WaterTexture s.cur_loading_water_tex fuel [] hcur hload hupl
    rw [LWT_exit1 env fuel s
        (env.upload (env.load (diffuseFilename s.cur_loading_water_tex)))
        (by rw [e1])]
    refine ⟨rfl, by rw [e1], by rw [e1], ?_, ?_⟩
    · intro j hj
      simp only [e1]
      have hjlen : j < (s.m_WaterTexture.set s.cur_loading_water_tex
          (env.load (diffuseFilename s.cur_loading_water_tex))).length := by
        simp [hj]
      rw [getElem!_pos (s.m_WaterTexture.set s.cur_loading_water_tex
          (env.load (diffuseFilename s.cur_loading_water_tex))) j hjlen,
        List.getElem_set]
      by_cases hje : s.cur_loading_water_tex = j
      · rw [if_pos hje]
        constructor
        · intro _
          omega
        · intro _
          omega
      · rw [if_neg hje]
        obtain ⟨ha, hb⟩ := hslots j hj
        rw [getElem!_pos s.m_WaterTexture j hj] at ha hb
        constructor
        · intro hne
          by_contra hgt
          exact hne (hb (by omega))
        · intro hle
          exact ha (by omega)
    · have hmem : env.load (diffuseFilename s.cur_loading_water_tex)
          ∈ s.m_WaterTexture.set s.cur_loading_water_tex
              (env.load (diffuseFilename s.cur_loading_water_tex)) :=
        List.mem_set s.m_WaterTexture s.cur_loading_water_tex hcur
          (env.load (diffuseFilename s.cur_loading_water_tex))
      rw [e1]
      exact List.mem_append_left _ hmem
  · intro env fuel s hwcap hcur hload hupl hslots
    have e1 : loop1 env fuel s =
        ⟨s.m_WaterTexture, s.cur_loading_water_tex, [], none, fuel⟩ := by
      rw [loop1]
      exact loadLoop_done _ _ _ _ _ _ _ (by omega)
    have e2 : loop2 env fuel s =
        ⟨s.m_NormalMap.set s.cur_loading_normal_map
            (env.load (normalFilename s.cur_loading_normal_map)),
          s.cur_loading_normal_map,
          [] ++ [normalFilename s.cur_loading_normal_map],
          some (env.upload (env.load
            (normalFilename s.cur_loading_normal_map))),
          fuel⟩ := by
      rw [loop2, e1]
      exact loadLoop_step_uploadFail env.load env.upload normalFilename
        s.m_NormalMap s.cur_loading_normal_map fuel [] hcur hload hupl
    rw [LWT_exit2 env fuel s
        (env.upload (env.load (normalFilename s.cur_loading_normal_map)))
        (by rw [e1]) (by rw [e2])]
    refine ⟨rfl, by rw [e2], by rw [e2], ?_, ?_⟩
    · intro j hj
      simp only [e2]
      have hjlen : j < (s.m_NormalMap.set s.cur_loading_normal_map
          (env.load (normalFilename s.cur_loading_normal_map))).length := by
        simp [hj]
      rw [getElem!_pos (s.m_NormalMap.set s.cur_loading_normal_map
          (env.load (normalFilename s.cur_loading_normal_map))) j hjlen,
        List.getElem_set]
      by_cases hje : s.cur_loading_normal_map = j
      · rw [if_pos hje]
        constructor
        · intro _
          omega
        · intro _
          omega
      · rw [if_neg hje]
        obtain ⟨ha, hb⟩ := hslots j hj
        rw [getElem!_pos s.m_NormalMap j hj] at ha hb
        constructor
        · intro hne
          by_contra hgt
          exact hne (hb (by omega))
        · intro hle
          exact ha (by omega)
    · have hmem : env.load (normalFilename s.cur_loading_normal_map)
          ∈ s.m_NormalMap.set s.cur_loading_normal_map
              (env.load (normalFilename s.cur_loading_normal_map)) :=
        List.mem_set s.m_NormalMap s.cur_loading_normal_map hcur
          (env.load (normalFilename s.cur_loading_normal_map))
      rw [e2]
      exact List.mem_append_right _ hmem

/-- C10 witness: two concrete instances — one in which the upload of the
first diffuse resource fails (capacities 2/1), leaving its handle stored in
diffuse slot 0, and one in which the upload of the first normal-map
resource fails (capacities 0/1, diffuse trivially complete), leaving its
handle stored in normal-map slot 0. -/
theorem claim_C10_witness :
    (((initState 2 1).cur_loading_water_tex
        < (initState 2 1).m_WaterTexture.length ∧
      0 < envUploadFails.load
          (diffuseFilename (initState 2 1).cur_loading_water_tex) ∧
      envUploadFails.upload (envUploadFails.load
          (diffuseFilename (initState 2 1).cur_loading_water_tex)) < 0 ∧
      (∀ j, j < (initState 2 1).m_WaterTexture.length →
        ((j < (initState 2 1).cur_loading_water_tex →
            (initState 2 1).m_WaterTexture[j]! ≠ 0) ∧
          ((initState 2 1).cur_loading_water_tex ≤ j →
            (initState 2 1).m_WaterTexture[j]! = 0)))) ∧
    ((LoadWaterTextures envUploadFails 5 (initState 2 1)).1
        = envUploadFails.upload (envUploadFails.load
            (diffuseFilename (initState 2 1).cur_loading_water_tex)) ∧
      (LoadWaterTextures envUploadFails 5 (initState 2 1)).2.1.m_WaterTexture
        = (initState 2 1).m_WaterTexture.set
            (initState 2 1).cur_loading_water_tex
            (envUploadFails.load
              (diffuseFilename (initState 2 1).cur_loading_water_tex)) ∧
      (LoadWaterTextures envUploadFails 5
          (initState 2 1)).2.1.cur_loading_water_tex
        = (initState 2 1).cur_loading_water_tex ∧
      (∀ j, j < (initState 2 1).m_WaterTexture.length →
        ((LoadWaterTextures envUploadFails 5
            (initState 2 1)).2.1.m_WaterTexture[j]! ≠ 0 ↔
          j ≤ (initState 2 1).cur_loading_water_tex)) ∧
      envUploadFails.load
          (diffuseFilename (initState 2 1).cur_loading_water_tex)
        ∈ (UnloadWaterTextures
            (LoadWaterTextures envUploadFails 5 (initState 2 1)).2.1).1)) ∧
    (((initState 0 1).cur_loading_water_tex
        = (initState 0 1).m_WaterTexture.length ∧
      (initState 0 1).cur_loading_normal_map
        < (initState 0 1).m_NormalMap.length ∧
      0 < envUploadFails.load
          (normalFilename (initState 0 1).cur_loading_normal_map) ∧
      envUploadFails.upload (envUploadFails.load
          (normalFilename (initState 0 1).cur_loading_normal_map)) < 0 ∧
      (∀ j, j < (initState 0 1).m_NormalMap.length →
        ((j < (initState 0 1).cur_loading_normal_map →
            (initState 0 1).m_NormalMap[j]! ≠ 0) ∧
          ((initState 0 1).cur_loading_normal_map ≤ j →
            (initState 0 1).m_NormalMap[j]! = 0)))) ∧
    ((LoadWaterTextures envUploadFails 5 (initState 0 1)).1
        = envUploadFails.upload (envUploadFails.load
            (normalFilename (initState 0 1).cur_loading_normal_map)) ∧
      (LoadWaterTextures envUploadFails 5 (initState 0 1)).2.1.m_NormalMap
        = (initState 0 1).m_NormalMap.set
            (initState 0 1).cur_loading_normal_map
            (envUploadFails.load
              (normalFilename (initState 0 1).cur_loading_normal_map)) ∧
      (LoadWaterTextures envUploadFails 5
          (initState 0 1)).2.1.cur_loading_normal_map
        = (initState 0 1).cur_loading_normal_map ∧
      (∀ j, j < (initState 0 1).m_NormalMap.length →
        ((LoadWaterTextures envUploadFails 5
            (initState 0 1)).2.1.m_NormalMap[j]! ≠ 0 ↔
          j ≤ (initState 0 1).cur_loading_normal_map)) ∧
      envUploadFails.load
          (normalFilename (initState 0 1).cur_loading_normal_map)
        ∈ (UnloadWaterTextures
            (LoadWaterTextures envUploadFails 5 (initState 0 1)).2.1).1)) :=
  ⟨⟨⟨by decide, by decide, by decide, by decide⟩,
      claim_C10.1 envUploadFails 5 (initState 2 1) (by decide) (by decide)
        (by decide) (by decide)⟩,
    ⟨⟨by decide, by decide, by decide, by decide, by decide⟩,
      claim_C10.2 envUploadFails 5 (initState 0 1) (by decide) (by decide)
        (by decide) (by decide) (by decide)⟩⟩

/-- Folding equation for loop1 (definitional). -/
theorem loop1_eq (env : Env) (fuel : Nat) (s : WMState) :
    loadLoop env.load env.upload diffuseFilename s.m_WaterTexture
      s.cur_loading_water_tex fuel [] = loop1 env fuel s := rfl

/-- Folding equation for loop2 (definitional). -/
theorem loop2_eq (env : Env) (fuel : Nat) (s : WMState) :
    loadLoop env.load env.upload normalFilename s.m_NormalMap
      s.cur_loading_normal_map (loop1 env fuel s).fuelLeft
      (loop1 env fuel s).log = loop2 env fuel s := rfl

/-- C7 counterexample: in a session of two step calls in which the first
diffuse load fails, the second call requests the very same identifier
again, so the session's requests are not pairwise distinct — within a class
the requested indices are not strictly ascending across the session. -/
theorem claim_C7_counterexample :
    (runSession envBad [0, 0] (initState 2 1)).2
        = [diffuseFilename 0, diffuseFilename 0] ∧
    ¬ List.Pairwise (fun a b => a ≠ b)
        (runSession envBad [0, 0] (initState 2 1)).2 := by
  decide

/-- C7 (amended): within every single step call the requested identifiers
are a run of consecutive ascending diffuse indices starting at the diffuse
cursor, followed by a run of consecutive ascending normal-map indices
starting at the normal cursor; a normal-map resource is only requested once
the diffuse cursor has reached capacity, and both cursors are monotone —
hence across a session no diffuse request ever follows a normal request,
within each class indices are non-decreasing, and an index repeats only by
being re-requested on the call after a failure. -/
theorem claim_C7 (env : Env) (fuel : Nat) (s : WMState)
    (hcw : s.cur_loading_water_tex ≤ s.m_WaterTexture.length)
    (hcn : s.cur_loading_normal_map ≤ s.m_NormalMap.length) :
    ∃ dW dN,
      (LoadWaterTextures env fuel s).2.2 =
        (List.range' s.cur_loading_water_tex dW).map diffuseFilename ++
        (List.range' s.cur_loading_normal_map dN).map normalFilename ∧
      (dN ≠ 0 →
        (LoadWaterTextures env fuel s).2.1.cur_loading_water_tex
          = s.m_WaterTexture.length) ∧
      s.cur_loading_water_tex
          ≤ (LoadWaterTextures env fuel s).2.1.cur_loading_water_tex ∧
      s.cur_loading_normal_map
          ≤ (LoadWaterTextures env fuel s).2.1.cur_loading_normal_map := by
  obtain ⟨hlen1, hmono1, hnone1, hmax1, d1, hlog1⟩ :=
    loadLoop_basic env.load env.upload diffuseFilename fuel s.m_WaterTexture
      s.cur_loading_water_tex []
  simp only [loop1_eq] at hlen1 hmono1 hnone1 hmax1 hlog1
  cases hex1 : (loop1 env fuel s).exitCode with
  | some code =>
    rw [LWT_exit1 env fuel s code hex1]
    refine ⟨d1, 0, ?_, by simp, by simpa using hmono1, by simp⟩
    simp [hlog1]
  | none =>
    have hcur1 : (loop1 env fuel s).cur = s.m_WaterTexture.length := by
      have h := hnone1 hex1
      omega
    obtain ⟨hlen2, hmono2, hnone2, hmax2, d2, hlog2⟩ :=
      loadLoop_basic env.load env.upload normalFilename
        (loop1 env fuel s).fuelLeft s.m_NormalMap s.cur_loading_normal_map
        (loop1 env fuel s).log
    simp only [loop2_eq] at hlen2 hmono2 hnone2 hmax2 hlog2
    cases hex2 : (loop2 env fuel s).exitCode with
    | some code =>
      rw [LWT_exit2 env fuel s code hex1 hex2]
      refine ⟨d1, d2, ?_, fun _ => by simpa using hcur1,
        by simpa using hmono1, by simpa using hmono2⟩
      rw [hlog2, hlog1]
      simp
    | none =>
      rw [LWT_through env fuel s hex1 hex2]
      refine ⟨d1, d2, ?_, fun _ => by simp [provision, hcur1],
        by simpa [provision] using hmono1, by simpa [provision] using hmono2⟩
      rw [hlog2, hlog1]
      simp

/-- C7 witness: the per-call request structure at a concrete fresh 1/1
instance whose single budgeted call loads everything. -/
theorem claim_C7_witness :
    ((initState 1 1).cur_loading_water_tex
        ≤ (initState 1 1).m_WaterTexture.length ∧
      (initState 1 1).cur_loading_normal_map
        ≤ (initState 1 1).m_NormalMap.length) ∧
    (∃ dW dN,
      (LoadWaterTextures envOk 5 (initState 1 1)).2.2 =
        (List.range' (initState 1 1).cur_loading_water_tex dW).map
          diffuseFilename ++
        (List.range' (initState 1 1).cur_loading_normal_map dN).map
          normalFilename ∧
      (dN ≠ 0 →
        (LoadWaterTextures envOk 5 (initState 1 1)).2.1.cur_loading_water_tex
          = (initState 1 1).m_WaterTexture.length) ∧
      (initState 1 1).cur_loading_water_tex
          ≤ (LoadWaterTextures envOk 5
              (initState 1 1)).2.1.cur_loading_water_tex ∧
      (initState 1 1).cur_loading_normal_map
          ≤ (LoadWaterTextures envOk 5
              (initState 1 1)).2.1.cur_loading_normal_map) :=
  ⟨⟨by decide, by decide⟩,
    claim_C7 envOk 5 (initState 1 1) (by decide) (by decide)⟩

/-- C8: in a failure-free environment, any session of step calls (each with
an arbitrary budget) that drives both cursors to capacity leaves exactly
the same populated slots as one uninterrupted call whose budget covers the
whole batch: slot i of each class holds the handle the load primitive
returns for that class's identifier i, independent of how the work was
sliced. -/
theorem claim_C8 (env : Env) (nT nN : Nat) (fuels : List Nat) (fuel0 : Nat)
    (hL : ∀ fn, 0 < env.load fn) (hU : ∀ h, 0 ≤ env.upload h)
    (hfuel0 : nT + nN ≤ fuel0)
    (hw : (runSession env fuels (initState nT nN)).1.cur_loading_water_tex
        = nT)
    (hn : (runSession env fuels (initState nT nN)).1.cur_loading_normal_map
        = nN) :
    (runSession env fuels (initState nT nN)).1.m_WaterTexture
        = (LoadWaterTextures env fuel0 (initState nT nN)).2.1.m_WaterTexture ∧
    (runSession env fuels (initState nT nN)).1.m_NormalMap
        = (LoadWaterTextures env fuel0 (initState nT nN)).2.1.m_NormalMap ∧
    (runSession env fuels (initState nT nN)).1.m_WaterTexture
        = (List.range nT).map (fun i => env.load (diffuseFilename i)) ∧
    (runSession env fuels (initState nT nN)).1.m_NormalMap
        = (List.range nN).map (fun i => env.load (normalFilename i)) := by
  obtain ⟨hgw, hgn, h3, h4⟩ :=
    runSession_good env nT nN hL hU fuels (initState nT nN)
      (initState_good env nT nN)
  rw [hw] at hgw
  rw [hn] at hgn
  obtain ⟨hf0, hfw, hfn, hfcw, hfcn, hfr⟩ := LWT_full env nT nN hL hU fuel0 hfuel0
  refine ⟨?_, ?_, ?_, ?_⟩
  · rw [hgw, hfw]
  · rw [hgn, hfn]
  · rw [hgw, fill_full]
  · rw [hgn, fill_full]

/-- C8 witness: a 2-diffuse / 1-normal batch sliced into three minimal
budget calls ends with the same slots as one uninterrupted call. -/
theorem claim_C8_witness :
    ((∀ fn, 0 < envOk.load fn) ∧ (∀ h, 0 ≤ envOk.upload h) ∧
      (2 : Nat) + 1 ≤ 3 ∧
      (runSession envOk [0, 0, 0] (initState 2 1)).1.cur_loading_water_tex
        = 2 ∧
      (runSession envOk [0, 0, 0] (initState 2 1)).1.cur_loading_normal_map
        = 1) ∧
    ((runSession envOk [0, 0, 0] (initState 2 1)).1.m_WaterTexture
        = (LoadWaterTextures envOk 3 (initState 2 1)).2.1.m_WaterTexture ∧
      (runSession envOk [0, 0, 0] (initState 2 1)).1.m_NormalMap
        = (LoadWaterTextures envOk 3 (initState 2 1)).2.1.m_NormalMap ∧
      (runSession envOk [0, 0, 0] (initState 2 1)).1.m_WaterTexture
        = (List.range 2).map (fun i => envOk.load (diffuseFilename i)) ∧
      (runSession envOk [0, 0, 0] (initState 2 1)).1.m_NormalMap
        = (List.range 1).map (fun i => envOk.load (normalFilename i))) :=
  ⟨⟨fun _ => by show (0 : Int) < 7; decide, fun _ => by show (0 : Int) ≤ 0; decide,
      by decide, by decide, by decide⟩,
    claim_C8 envOk 2 1 [0, 0, 0] 3
      (fun _ => by show (0 : Int) < 7; decide)
      (fun _ => by show (0 : Int) ≤ 0; decide)
      (by decide) (by decide) (by decide)⟩

end WaterMgr
